import Mathlib

set_option linter.unusedVariables false
set_option linter.unnecessarySeqFocus false

/-!
Verification development for the multi-agent task router
(`src/agents/routing_agent/agent.py` and its collaborators).

The Python code is shallowly embedded: JSON-like Python values become the
inductive `PyValue`, Python exceptions become `Except PyErr`, the LangGraph
state becomes the structure `RoutingState`, and every external effect (LLM
calls, HTTP transport, local agent execution, ReportLab/filesystem I/O) is an
explicit parameter gathered in `PipelineEnv`.
-/

/-- Model of a JSON-like Python value: the payloads held in the routing
state's slots and exchanged with the worker agents. Numbers are modelled as
rationals (Python ints and floats; no rounding subtleties are exercised at
the points where theorems evaluate numerics). -/
inductive PyValue where
  | str : String → PyValue
  | num : ℚ → PyValue
  | boolV : Bool → PyValue
  | list : List PyValue → PyValue
  | dict : List (String × PyValue) → PyValue

/-- Model of the Python exceptions that the routing code distinguishes:
`send_task` catches only `KeyError`/`IndexError`, the document handler's
inner `except` catches only `json.JSONDecodeError`, while the risk and
compliance handlers catch every `Exception`. -/
inductive PyErr where
  | typeError : String → PyErr
  | keyError : String → PyErr
  | indexError : String → PyErr
  | attributeError : String → PyErr
deriving Repr, DecidableEq

/-- Rendering of an exception as `str(e)`, the form interpolated into the
error strings the handlers store in their slots. -/
def PyErr.msg : PyErr → String
  | .typeError m => m
  | .keyError m => m
  | .indexError m => m
  | .attributeError m => m

/-- Association-list lookup modelling Python `d[k]` / `d.get(k)` on a dict
whose insertion order we keep. Keys are unique in every dict the embedded
code constructs, so first-match lookup coincides with Python semantics. -/
def dictLookup (d : List (String × PyValue)) (k : String) : Option PyValue :=
  (d.find? (fun kv => kv.1 == k)).map (fun kv => kv.2)

/-- Membership `k in d.keys()` for a dict. -/
def dictHasKey (d : List (String × PyValue)) (k : String) : Bool :=
  (dictLookup d k).isSome

/-- Character-list equality (used by the string primitives below, which are
written over `List Char` so that they evaluate by kernel reduction). -/
def charListEq : List Char → List Char → Bool
  | [], [] => true
  | a :: as, b :: bs => a == b && charListEq as bs
  | _, _ => false

/-- Test that `needle` occurs at the head of `hay`. -/
def charListAt (needle hay : List Char) : Bool :=
  charListEq (hay.take needle.length) needle

/-- Occurrence of `needle` anywhere in `hay`. -/
def charListSub (needle : List Char) : List Char → Bool
  | [] => charListEq [] needle
  | c :: rest => charListAt needle (c :: rest) || charListSub needle rest

/-- Substring test, modelling Python `needle in s` on strings. -/
def strContains (s needle : String) : Bool :=
  charListSub needle.data s.data

/-- Suffix test, modelling Python `k.endswith(suffix)`. -/
def strEndsWith (s suffixStr : String) : Bool :=
  charListEq (s.data.drop (s.data.length - suffixStr.data.length)) suffixStr.data

/-- Python `str.strip()`: whitespace removed from both ends. -/
def pyStrip (s : String) : String :=
  let ws : Char → Bool := fun c => c == ' ' || c == '\t' || c == '\n' || c == '\r'
  String.mk (((s.data.dropWhile ws).reverse.dropWhile ws).reverse)

/-- Python `str.lower()` (the route labels are ASCII, so ASCII lowering
suffices). -/
def pyLower (s : String) : String :=
  String.mk (s.data.map Char.toLower)

/-- Python truthiness `bool(v)` of a JSON-like value. -/
def pyTruthy : PyValue → Bool
  | .str s => s != ""
  | .num q => q != 0
  | .boolV b => b
  | .list xs => !xs.isEmpty
  | .dict d => !d.isEmpty

/-- Python `in` operator, `needle in v`: key membership on dicts, element
membership on lists, substring on strings, `TypeError` on numbers and
booleans. -/
def pyIn (needle : String) : PyValue → Except PyErr Bool
  | .dict d => .ok (dictHasKey d needle)
  | .list xs => .ok (xs.any (fun x => match x with | .str s => s == needle | _ => false))
  | .str s => .ok (strContains s needle)
  | .num _ => .error (.typeError "argument of type int or float is not iterable")
  | .boolV _ => .error (.typeError "argument of type bool is not iterable")

/-- Python subscription `v[k]` with a string key: value or `KeyError` on a
dict, `TypeError` on anything else. -/
def pySubscript (v : PyValue) (k : String) : Except PyErr PyValue :=
  match v with
  | .dict d =>
    match dictLookup d k with
    | some x => .ok x
    | none => .error (.keyError k)
  | .list _ => .error (.typeError "list indices must be integers or slices, not str")
  | .str _ => .error (.typeError "string indices must be integers")
  | _ => .error (.typeError "object is not subscriptable")

/-- Python indexing `v[0]`: first element of a list (or `IndexError`), first
character of a string, `TypeError` otherwise. -/
def pyIndex0 (v : PyValue) : Except PyErr PyValue :=
  match v with
  | .list [] => .error (.indexError "list index out of range")
  | .list (x :: _) => .ok x
  | .str s =>
    match s.data with
    | [] => .error (.indexError "string index out of range")
    | c :: _ => .ok (.str (String.mk [c]))
  | _ => .error (.typeError "object is not subscriptable")

/-- Python method call `v.get(k, dflt)`: defaulting lookup on a dict,
`AttributeError` on any other value. -/
def pyDictGet (v : PyValue) (k : String) (dflt : PyValue) : Except PyErr PyValue :=
  match v with
  | .dict d =>
    match dictLookup d k with
    | some x => .ok x
    | none => .ok dflt
  | _ => .error (.attributeError "object has no attribute get")

mutual

/-- Model of `json.dumps` on a JSON-like value (default separators). String
escaping is not modelled; the embedded code only serialises plain keys and
values. -/
def pyJsonDumps : PyValue → String
  | .str s => "\"" ++ s ++ "\""
  | .num q => if q.den = 1 then toString q.num else toString q
  | .boolV b => if b then "true" else "false"
  | .list xs => "[" ++ pyJsonDumpsList xs ++ "]"
  | .dict d => "\x7b" ++ pyJsonDumpsDict d ++ "\x7d"

/-- Comma-separated serialisation of a JSON array's elements. -/
def pyJsonDumpsList : List PyValue → String
  | [] => ""
  | [x] => pyJsonDumps x
  | x :: y :: xs => pyJsonDumps x ++ ", " ++ pyJsonDumpsList (y :: xs)

/-- Comma-separated serialisation of a JSON object's entries. -/
def pyJsonDumpsDict : List (String × PyValue) → String
  | [] => ""
  | [kv] => "\"" ++ kv.1 ++ "\": " ++ pyJsonDumps kv.2
  | kv :: kw :: d => "\"" ++ kv.1 ++ "\": " ++ pyJsonDumps kv.2 ++ ", " ++ pyJsonDumpsDict (kw :: d)

end

mutual

/-- Model of Python `repr`/`str` on a JSON-like value (single-quoted strings,
`True`/`False`), as interpolated by f-strings such as the `send_task`
fallback message. -/
def pyRepr : PyValue → String
  | .str s => "'" ++ s ++ "'"
  | .num q => if q.den = 1 then toString q.num else toString q
  | .boolV b => if b then "True" else "False"
  | .list xs => "[" ++ pyReprList xs ++ "]"
  | .dict d => "\x7b" ++ pyReprDict d ++ "\x7d"

/-- Comma-separated `repr` of a list's elements. -/
def pyReprList : List PyValue → String
  | [] => ""
  | [x] => pyRepr x
  | x :: y :: xs => pyRepr x ++ ", " ++ pyReprList (y :: xs)

/-- Comma-separated `repr` of a dict's entries. -/
def pyReprDict : List (String × PyValue) → String
  | [] => ""
  | [kv] => "'" ++ kv.1 ++ "': " ++ pyRepr kv.2
  | kv :: kw :: d => "'" ++ kv.1 ++ "': " ++ pyRepr kv.2 ++ ", " ++ pyReprDict (kw :: d)

end

/-- Python `str(v)`: the string itself for strings, `repr` otherwise. -/
def pyStr : PyValue → String
  | .str s => s
  | v => pyRepr v

/-! ## The worker client: `AgentConnector.send_task` (utilities/a2a/agent_connect.py)

The HTTP exchange itself is external, so it enters the model as a
`TransportOutcome`: either the A2A/httpx call raised (timeout, connection
refused, protocol error) or a reply envelope was received and dumped to a
JSON-like value. `send_task` then extracts the text payload from the fixed
nested path `result.status.message.parts[0].text`, catching only `KeyError`
and `IndexError`; any other exception — including the transport ones —
propagates to the caller, which the `Except.error` branch models. -/

/-- Outcome of the underlying `a2a_client.send_message` call inside
`send_task`. -/
inductive TransportOutcome where
  | raise : String → TransportOutcome
  | respond : PyValue → TransportOutcome

/-- Extraction of `response_data['result']['status']['message']['parts'][0]['text']`
as performed inside `send_task`. -/
def sendTaskExtract (rd : PyValue) : Except PyErr String := do
  let a ← pySubscript rd "result"
  let b ← pySubscript a "status"
  let c ← pySubscript b "message"
  let d ← pySubscript c "parts"
  let e ← pyIndex0 d
  let f ← pySubscript e "text"
  pure (pyStr f)

/-- Model of `AgentConnector.send_task`. A `.error` result models an
exception escaping `send_task`: the `except (KeyError, IndexError)` clause
converts only a missing nested path into the fallback string, while
transport failures and `TypeError`s raised during extraction propagate to
the caller. -/
def sendTask (o : TransportOutcome) : Except String String :=
  match o with
  | .raise m => .error m
  | .respond rd =>
    match sendTaskExtract rd with
    | .ok t => .ok t
    | .error (.keyError _) =>
      .ok ("Response received but couldn't extract text. Full response: " ++ pyRepr rd)
    | .error (.indexError _) =>
      .ok ("Response received but couldn't extract text. Full response: " ++ pyRepr rd)
    | .error e => .error e.msg

/-! ## The routing state (`RoutingState` TypedDict in routing_agent/agent.py) -/

/-- Model of the LangGraph `RoutingState`: the task text, the chosen route
label, the four mutable slots, and the append-only message log.
`process_query` initialises every field, so all seven keys are present in
the state dict throughout a run. -/
structure RoutingState where
  messages : List PyValue
  query : String
  route_decision : String
  document_data : PyValue
  risk_assessment : PyValue
  compliance_result : PyValue
  final_result : PyValue

/-- State freshly initialised by `process_query`: empty message log, empty
route label, and all four slots set to the empty dict. -/
def initialState (q : String) : RoutingState :=
  { messages := []
    query := q
    route_decision := ""
    document_data := .dict []
    risk_assessment := .dict []
    compliance_result := .dict []
    final_result := .dict [] }

/-- The state viewed as the Python dict `state.items()`, in TypedDict field
order. -/
def stateItems (st : RoutingState) : List (String × PyValue) :=
  [("messages", .list st.messages),
   ("query", .str st.query),
   ("route_decision", .str st.route_decision),
   ("document_data", st.document_data),
   ("risk_assessment", st.risk_assessment),
   ("compliance_result", st.compliance_result),
   ("final_result", st.final_result)]

/-- Defaulting lookup `state.get(k, dflt)` on the state dict. -/
def stateGet (st : RoutingState) (k : String) (dflt : PyValue) : PyValue :=
  match dictLookup (stateItems st) k with
  | some v => v
  | none => dflt

/-- Message-log entry appended by the handlers:
`{"role": "assistant", "content": ...}`. -/
def assistantMsg (content : String) : PyValue :=
  .dict [("role", .str "assistant"), ("content", .str content)]

/-! ## The classifier (`_make_routing_decision`) -/

/-- The closed set of route labels enumerated in the routing prompt and in
the validation list `valid_routes`. -/
def validRoutes : List String :=
  ["document_only", "risk_only", "compliance_only", "full_pipeline"]

/-- Validation applied to the classifier reply:
`response.content.strip().lower()` followed by the closed-set check, with
`full_pipeline` as the fail-open default. -/
def validateRoute (content : String) : String :=
  let route_decision := pyLower (pyStrip content)
  if route_decision ∈ validRoutes then route_decision else "full_pipeline"

/-- Model of `_make_routing_decision` given the text returned by the LLM:
stores the validated label and logs it. -/
def makeRoutingDecision (content : String) (st : RoutingState) : RoutingState :=
  let route := validateRoute content
  { st with
      route_decision := route
      messages := st.messages ++ [assistantMsg ("Routing decision: " ++ route)] }

/-! ## Stage handlers

Each handler first looks for a matching agent card (`_get_agent_by_skill`);
whether one is found, and what the remote worker or the local fallback agent
answers, are environmental facts, so they enter the model as the per-stage
call descriptions below. A `SendOutcome` folds together `send_task` and the
subsequent `json.loads`: `.raised` is an exception escaping `send_task`
(transport failure), `.textReply` is a returned string that is not valid
JSON (`json.JSONDecodeError`), and `.jsonReply` is a returned string that
parses to the given JSON value. -/

/-- Joint outcome of `connector.send_task` and `json.loads(response)` in a
stage's remote branch. -/
inductive SendOutcome where
  | raised : String → SendOutcome
  | textReply : String → SendOutcome
  | jsonReply : PyValue → SendOutcome

/-- Document stage call: either no document agent was discovered and the
whole local branch (PDF-path regex, `DocumentAgent.process_document` or the
hard-coded sample applicant) produced the given result or raised, or a
remote agent was used with the given send outcome. -/
inductive DocCall where
  | noAgent : Except String PyValue → DocCall
  | agent : SendOutcome → DocCall

/-- Risk stage call: the local branch (`CreditRiskAgent.process_document_data`)
is an oracle from the input the handler passes to it; `.error` models
`risk_agent.create()` or the call itself raising. -/
inductive RiskCall where
  | noAgent : (PyValue → Except String PyValue) → RiskCall
  | agent : SendOutcome → RiskCall

/-- Compliance stage call: the local branch (`ComplianceAgent.process`)
receives the serialised input string. -/
inductive CompCall where
  | noAgent : (String → Except String PyValue) → CompCall
  | agent : SendOutcome → CompCall

/-- Selection of `document_data` from a parsed reply, lines 253-263 of the
routing agent: prefer `results[0]`, else the value itself (the
`applicant_name` and fallback branches both keep `response_data`). The
logging call `document_data.get('applicant_name', 'Unknown')` in the
`results` branch can raise `AttributeError` on a non-dict element. -/
def selectDocumentData (v : PyValue) : Except PyErr PyValue := do
  let hasResults ← pyIn "results" v
  if hasResults then do
    let res ← pySubscript v "results"
    if pyTruthy res then do
      let d ← pyIndex0 res
      let _ ← pyDictGet d "applicant_name" (.str "Unknown")
      pure d
    else do
      let _ ← pyIn "applicant_name" v
      pure v
  else do
    let _ ← pyIn "applicant_name" v
    pure v

/-- Remote branch of `_process_document` after an agent card was found:
transport failures and any exception from the parse region are caught at
line 275 and stored as a communication-failure error dict; a non-JSON reply
is caught at line 265 and wrapped with `raw_response`/`processing_note`. -/
def processDocumentRemote (o : SendOutcome) : PyValue :=
  match o with
  | .raised e => .dict [("error", .str ("Document agent communication failed: " ++ e))]
  | .textReply raw =>
    .dict [("applicant_name", .str "Document Agent Response"),
           ("annual_income", .num 75000),
           ("raw_response", .str raw),
           ("processing_note", .str "Response parsed from text format")]
  | .jsonReply v =>
    match selectDocumentData v with
    | .ok d => d
    | .error e => .dict [("error", .str ("Document agent communication failed: " ++ e.msg))]

/-- Model of the `_process_document` stage handler. The outer `try` at line
204 converts an exception from the local branch into a
`Document processing failed` error slot. -/
def processDocument (call : DocCall) (st : RoutingState) : RoutingState :=
  match call with
  | .noAgent localRes =>
    match localRes with
    | .ok d =>
      { st with document_data := d
                messages := st.messages ++ [assistantMsg "Document processing completed"] }
    | .error e =>
      { st with document_data := .dict [("error", .str ("Document processing failed: " ++ e))]
                messages := st.messages ++ [assistantMsg ("Document processing error: " ++ e)] }
  | .agent o =>
    { st with document_data := processDocumentRemote o
              messages := st.messages ++ [assistantMsg "Document processing completed"] }

/-- Input the risk stage passes to the local fallback agent:
`state.get("document_data", state["query"])` (line 302). -/
def riskLocalInput (st : RoutingState) : PyValue :=
  stateGet st "document_data" (.str st.query)

/-- Input the risk stage serialises into the remote request:
`state.get("document_data", {})` (line 310). -/
def riskRemoteInput (st : RoutingState) : PyValue :=
  stateGet st "document_data" (.dict [])

/-- Request text built for the remote credit-risk agent (lines 310-314). -/
def riskRequest (st : RoutingState) : String :=
  match riskRemoteInput st with
  | .dict d => "Perform credit risk assessment on this applicant data: " ++ pyJsonDumps (.dict d)
  | _ => "Perform credit risk assessment. Query: " ++ st.query

/-- Common selection shape of the risk and compliance remote branches:
prefer the worker's named top-level key, then `results[0]`, else the parsed
value itself; the trailing logging call `.get(logKey, 'unknown')` raises on
a non-dict result and is caught by the stage's inner `except`. -/
def selectWorkerResult (primaryKey logKey : String) (v : PyValue) : Except PyErr PyValue := do
  let hasPrimary ← pyIn primaryKey v
  let r ←
    if hasPrimary then pySubscript v primaryKey
    else do
      let hasRes ← pyIn "results" v
      if hasRes then do
        let res ← pySubscript v "results"
        if pyTruthy res then pyIndex0 res else pure v
      else pure v
  let _ ← pyDictGet r logKey (.str "unknown")
  pure r

/-- Selection of `risk_result` from a parsed reply, lines 326-339: prefer
`risk_analysis`, then `results[0]`, else the value itself; the logging call
`risk_result.get('risk_level', 'unknown')` raises on a non-dict result and
is caught by the `except` at line 352. -/
def selectRiskResult (v : PyValue) : Except PyErr PyValue :=
  selectWorkerResult "risk_analysis" "risk_level" v

/-- Remote branch of `_assess_risk` after an agent card was found. -/
def assessRiskRemote (o : SendOutcome) : PyValue :=
  match o with
  | .raised e => .dict [("error", .str ("Credit risk agent communication failed: " ++ e))]
  | .textReply raw =>
    .dict [("risk_level", .str "medium"),
           ("risk_score", .num 65),
           ("confidence", .num (7/10)),
           ("raw_response", .str raw),
           ("processing_note", .str "Response parsed from text format")]
  | .jsonReply v =>
    match selectRiskResult v with
    | .ok r => r
    | .error e => .dict [("error", .str ("Credit risk agent communication failed: " ++ e.msg))]

/-- Model of the `_assess_risk` stage handler; the outer `try` at line 291
converts an exception from the local branch into a `Risk assessment failed`
error slot. -/
def assessRisk (call : RiskCall) (st : RoutingState) : RoutingState :=
  match call with
  | .noAgent runLocal =>
    match runLocal (riskLocalInput st) with
    | .ok r =>
      { st with risk_assessment := r
                messages := st.messages ++ [assistantMsg "Risk assessment completed"] }
    | .error e =>
      { st with risk_assessment := .dict [("error", .str ("Risk assessment failed: " ++ e))]
                messages := st.messages ++ [assistantMsg ("Risk assessment error: " ++ e)] }
  | .agent o =>
    { st with risk_assessment := assessRiskRemote o
              messages := st.messages ++ [assistantMsg "Risk assessment completed"] }

/-- Value the compliance stage's local branch starts from:
`state.get("risk_assessment", state.get("document_data", state["query"]))`
(line 379). -/
def complianceLocalInputData (st : RoutingState) : PyValue :=
  stateGet st "risk_assessment" (stateGet st "document_data" (.str st.query))

/-- Serialised content handed to the local compliance agent (lines 380-385):
`json.dumps` for a dict, `str(...)` otherwise. -/
def complianceLocalInput (st : RoutingState) : String :=
  match complianceLocalInputData st with
  | .dict d => pyJsonDumps (.dict d)
  | v => pyStr v

/-- Composite input the remote compliance request serialises (lines 392-396). -/
def complianceRemoteInputData (st : RoutingState) : PyValue :=
  .dict [("document_data", stateGet st "document_data" (.dict [])),
         ("risk_assessment", stateGet st "risk_assessment" (.dict [])),
         ("query", .str st.query)]

/-- Request text built for the remote compliance agent (line 398). -/
def complianceRequest (st : RoutingState) : String :=
  "Perform regulatory compliance check on this mortgage application data: "
    ++ pyJsonDumps (complianceRemoteInputData st)

/-- Selection of `compliance_result` from a parsed reply, lines 410-423:
prefer `compliance_analysis`, then `results[0]`, else the value itself; the
logging call `compliance_result.get('approved', 'unknown')` raises on a
non-dict result and is caught by the `except` at line 437. -/
def selectComplianceResult (v : PyValue) : Except PyErr PyValue :=
  selectWorkerResult "compliance_analysis" "approved" v

/-- Remote branch of `_check_compliance` after an agent card was found. -/
def checkComplianceRemote (o : SendOutcome) : PyValue :=
  match o with
  | .raised e => .dict [("error", .str ("Compliance agent communication failed: " ++ e))]
  | .textReply raw =>
    .dict [("approved", .boolV true),
           ("confidence", .num (8/10)),
           ("compliance_issues", .list []),
           ("recommendations", .list [.str "Manual review recommended"]),
           ("raw_response", .str raw),
           ("processing_note", .str "Response parsed from text format")]
  | .jsonReply v =>
    match selectComplianceResult v with
    | .ok r => r
    | .error e => .dict [("error", .str ("Compliance agent communication failed: " ++ e.msg))]

/-- Model of the `_check_compliance` stage handler; the outer `try` at line
368 converts an exception from the local branch into a `Compliance check
failed` error slot. -/
def checkCompliance (call : CompCall) (st : RoutingState) : RoutingState :=
  match call with
  | .noAgent runLocal =>
    match runLocal (complianceLocalInput st) with
    | .ok r =>
      { st with compliance_result := r
                messages := st.messages ++ [assistantMsg "Compliance check completed"] }
    | .error e =>
      { st with compliance_result := .dict [("error", .str ("Compliance check failed: " ++ e))]
                messages := st.messages ++ [assistantMsg ("Compliance check error: " ++ e)] }
  | .agent o =>
    { st with compliance_result := checkComplianceRemote o
              messages := st.messages ++ [assistantMsg "Compliance check completed"] }

/-! ## Aggregation stage (`_aggregate_results` and `_generate_pdf_report`) -/

/-- Python `k.endswith(('_data', '_assessment', '_result'))`, the key filter
used for both counts in `processing_summary`. -/
def endsWithStepSuffix (k : String) : Bool :=
  strEndsWith k "_data" || strEndsWith k "_assessment" || strEndsWith k "_result"

/-- Model of `_generate_pdf_report`. Every exception inside it is caught and
turned into `None`; the ReportLab/filesystem outcome is the environmental
`pdfBuild`. The function reads `applicant_name`, risk and compliance fields
with `.get`, so a non-dict stage slot inside `final_result` makes it raise
internally, hence return `None`. -/
def generatePdfReport (pdfBuild : Except String String) (fr : List (String × PyValue)) :
    Option String :=
  let isDictSlot : Option PyValue → Bool := fun v =>
    match v with
    | some (.dict _) => true
    | some _ => false
    | none => true
  if isDictSlot (dictLookup fr "document_data")
      && isDictSlot (dictLookup fr "risk_assessment")
      && isDictSlot (dictLookup fr "compliance_result") then
    match pdfBuild with
    | .ok path => some path
    | .error _ => none
  else none

/-- Entries of `state.items()` whose key survives the suffix filter of both
`processing_summary` comprehensions: the four slots. -/
def stepItems (st : RoutingState) : List (String × PyValue) :=
  (stateItems st).filter (fun kv => endsWithStepSuffix kv.1)

/-- Left-to-right run of the comprehension filter over the items: an entry
is kept when its key matches the suffix filter and `'error' not in v`; the
first membership test that raises aborts the comprehension. -/
def successfulItemsAux : List (String × PyValue) → Except PyErr (List (String × PyValue))
  | [] => .ok []
  | kv :: rest =>
    if endsWithStepSuffix kv.1 then
      match pyIn "error" kv.2 with
      | .error e => .error e
      | .ok hasErr =>
        match successfulItemsAux rest with
        | .error e => .error e
        | .ok tail => .ok (if hasErr then tail else kv :: tail)
    else successfulItemsAux rest

/-- The `successful_steps` comprehension,
`[v for k, v in state.items() if k.endswith(...) and 'error' not in v]`; a
thrown `PyErr` models the membership test raising on a non-iterable slot
value. -/
def successfulItems (st : RoutingState) : Except PyErr (List (String × PyValue)) :=
  successfulItemsAux (stateItems st)

/-- The `final_result` dict literal of lines 455-465, given the computed
`successful_steps` count. -/
def finalResultBase (st : RoutingState) (successful : ℚ) : List (String × PyValue) :=
  [("routing_decision", stateGet st "route_decision" (.str "unknown")),
   ("document_data", stateGet st "document_data" (.dict [])),
   ("risk_assessment", stateGet st "risk_assessment" (.dict [])),
   ("compliance_result", stateGet st "compliance_result" (.dict [])),
   ("processing_summary",
      .dict [("total_steps", .num ((stepItems st).length : ℚ)),
             ("successful_steps", .num successful),
             ("agent", .str "RoutingAgent")])]

/-- Body of the `try` block of `_aggregate_results` (lines 453-487): build
`final_result` with the two `processing_summary` counts, ask the LLM for a
summary (which may raise), and optionally attach the PDF path. -/
def aggregateBody (summarizer : Except String String) (pdfBuild : Except String String)
    (st : RoutingState) : Except String (List (String × PyValue)) :=
  match successfulItems st with
  | .error e => .error e.msg
  | .ok succItems =>
    match summarizer with
    | .error e => .error e
    | .ok summary =>
      let fr1 := finalResultBase st ((succItems.length : ℚ)) ++ [("summary", .str summary)]
      match generatePdfReport pdfBuild fr1 with
      | some path => .ok (fr1 ++ [("output_pdf_path", .str path)])
      | none => .ok fr1

/-- Model of the `_aggregate_results` stage handler: any exception inside
the `try` (LLM summarisation failure, or the membership test raising) is
caught at line 491 and replaces `final_result` with a bare error dict. -/
def aggregateResults (summarizer : Except String String) (pdfBuild : Except String String)
    (st : RoutingState) : RoutingState :=
  match aggregateBody summarizer pdfBuild st with
  | .ok fr =>
    { st with final_result := .dict fr
              messages := st.messages ++ [assistantMsg "Final aggregation completed"] }
  | .error e =>
    { st with final_result := .dict [("error", .str ("Aggregation failed: " ++ e))]
              messages := st.messages ++ [assistantMsg ("Aggregation error: " ++ e)] }

/-! ## The pipeline graph (`_build_routing_graph` and `process_query`) -/

/-- Nodes of the LangGraph workflow. -/
inductive Node where
  | route_decision
  | document_processing
  | risk_assessment
  | compliance_check
  | final_aggregation
deriving Repr, DecidableEq

/-- The fixed downstream edges added by `workflow.add_edge` (lines 151-156);
`none` is the `END` edge after `final_aggregation`. -/
def nextNode : Node → Option Node
  | .route_decision => none
  | .document_processing => some .risk_assessment
  | .risk_assessment => some .compliance_check
  | .compliance_check => some .final_aggregation
  | .final_aggregation => none

/-- The conditional-edge table from `route_decision` (lines 139-148): entry
point per validated route label. -/
def entryNode : String → Option Node
  | "document_only" => some .document_processing
  | "risk_only" => some .risk_assessment
  | "compliance_only" => some .compliance_check
  | "full_pipeline" => some .document_processing
  | _ => none

/-- Nodes visited when the interpreter starts at `n` and follows the fixed
edges, with fuel bounding the walk (the graph has four stage nodes). -/
def seqFrom : Nat → Node → List Node
  | 0, _ => []
  | fuel + 1, n =>
    n :: (match nextNode n with
          | some m => seqFrom fuel m
          | none => [])

/-- Stage nodes executed after `route_decision` for a validated route label. -/
def stageListOf (route : String) : List Node :=
  match entryNode route with
  | some n => seqFrom 5 n
  | none => []

/-- Environment of one `process_query` run: the classifier LLM reply (or its
exception), the three stage calls, the summarisation LLM reply (or its
exception), and the PDF build outcome. -/
structure PipelineEnv where
  classifier : Except String String
  docCall : DocCall
  riskCall : RiskCall
  compCall : CompCall
  summarizer : Except String String
  pdfBuild : Except String String

/-- Dispatch of one graph node to its stage handler. -/
def applyStage (env : PipelineEnv) (st : RoutingState) : Node → RoutingState
  | .route_decision => st
  | .document_processing => processDocument env.docCall st
  | .risk_assessment => assessRisk env.riskCall st
  | .compliance_check => checkCompliance env.compCall st
  | .final_aggregation => aggregateResults env.summarizer env.pdfBuild st

/-- Run of the workflow from a given (already validated) route label: the
state after `_make_routing_decision` stored `routeLabel`, driven through the
stages from the conditional entry point. -/
def runFromRoute (env : PipelineEnv) (routeLabel q : String) : RoutingState :=
  let st1 := makeRoutingDecision routeLabel (initialState q)
  match entryNode st1.route_decision with
  | some n => (seqFrom 5 n).foldl (applyStage env) st1
  | none => st1

/-- Model of `self.graph.ainvoke(initial_state)` inside `process_query`: the
classifier LLM call in `_make_routing_decision` is the only uncaught raise
in the graph, so its exception fails the whole workflow. -/
def runWorkflow (env : PipelineEnv) (q : String) : Except String RoutingState :=
  match env.classifier with
  | .error e => .error e
  | .ok content => .ok (runFromRoute env content q)

/-- Model of `process_query`: returns
`final_state.get("final_result", {"error": "No final result generated"})`,
or the workflow-failure dict when the graph run raised. -/
def processQuery (env : PipelineEnv) (q : String) : PyValue :=
  match runWorkflow env q with
  | .ok fin => stateGet fin "final_result" (.dict [("error", .str "No final result generated")])
  | .error e =>
    .dict [("error", .str ("Routing workflow failed: " ++ e)),
           ("agent", .str "RoutingAgent")]

/-! ## Local worker numerics

`CreditRiskAgent._assess_credit_risk` (credit_risk_agent/agent.py, lines
237-329) and the structured-data branch of
`ComplianceAgent._analyze_structured_data` (compliance_agent/agent.py, lines
150-200) are pure numeric functions once their inputs are extracted; they
are embedded over exact rationals. Python's float arithmetic and its
ties-to-even `round`/`:.1f` formatting can only diverge from ℚ at
representation margins and exact ties, neither of which occurs at the inputs
any theorem evaluates. -/

/-- Python `round(q, 2)`. -/
def roundTo2 (q : ℚ) : ℚ :=
  ((round (q * 100) : ℤ) : ℚ) / 100

/-- Python f-string `{q:.1f}` as used in the risk-factor and
compliance-issue messages. -/
def fmtQ1 (q : ℚ) : String :=
  let n : ℤ := round (q * 10)
  toString (n / 10) ++ "." ++ toString (n % 10).natAbs

/-- Output of `_extract_financial_metrics`: the numeric fields
`_assess_credit_risk` reads with `.get(..., 0)` defaults. -/
structure FinancialData where
  annual_income : ℚ
  monthly_debt : ℚ
  credit_score : ℚ
  loan_amount : ℚ

/-- Fields of the dict returned by `_assess_credit_risk` (the `metrics`
sub-dict repeats fields already present and is not duplicated here). -/
structure RiskReport where
  risk_level : String
  risk_score : ℚ
  confidence : ℚ
  credit_score_estimate : ℚ
  debt_to_income_ratio : ℚ
  annual_income : ℚ
  monthly_debt : ℚ
  risk_factors : List String
  recommendations : List String

/-- Model of `CreditRiskAgent._assess_credit_risk`. -/
def assessCreditRisk (fd : FinancialData) : RiskReport :=
  let annual_income := fd.annual_income
  let monthly_debt := fd.monthly_debt
  let credit_score := fd.credit_score
  let monthly_income : ℚ := if annual_income > 0 then annual_income / 12 else 0
  let debt_to_income : ℚ :=
    if monthly_income > 0 then monthly_debt / monthly_income * 100 else 100
  let csPart : List String × ℚ :=
    if credit_score = 0 then (["No credit score provided"], 30)
    else if credit_score < 580 then (["Poor credit score (below 580)"], 40)
    else if credit_score < 620 then (["Fair credit score (580-619)"], 25)
    else if credit_score < 670 then (["Good credit score (620-669)"], 10)
    else if credit_score < 740 then ([], 5)
    else ([], 0)
  let dtiPart : List String × ℚ :=
    if debt_to_income > 43 then
      (["High debt-to-income ratio (" ++ fmtQ1 debt_to_income ++ "%)"], 25)
    else if debt_to_income > 36 then
      (["Elevated debt-to-income ratio (" ++ fmtQ1 debt_to_income ++ "%)"], 15)
    else ([], 0)
  let incPart : List String × ℚ :=
    if annual_income < 30000 then (["Low annual income (below $30,000)"], 20)
    else if annual_income < 50000 then (["Moderate annual income ($30,000-$49,999)"], 10)
    else ([], 0)
  let risk_factors := csPart.1 ++ dtiPart.1 ++ incPart.1
  let risk_score := csPart.2 + dtiPart.2 + incPart.2
  let risk_level :=
    if risk_score ≥ 50 then "high"
    else if risk_score ≥ 25 then "medium"
    else "low"
  let recommendations :=
    (if credit_score < 620 then ["Consider credit improvement strategies before application"] else [])
    ++ (if debt_to_income > 43 then ["Reduce monthly debt obligations to improve DTI ratio"] else [])
    ++ (if annual_income < 50000 then ["Consider co-signer or additional income sources"] else [])
  let recommendations :=
    if recommendations.isEmpty then ["Applicant meets basic credit criteria"] else recommendations
  let confidence : ℚ :=
    7/10 + (if credit_score > 0 then 2/10 else 0) + (if annual_income > 0 then 1/10 else 0)
  { risk_level := risk_level
    risk_score := min risk_score 100
    confidence := min confidence 1
    credit_score_estimate := credit_score
    debt_to_income_ratio := roundTo2 debt_to_income
    annual_income := annual_income
    monthly_debt := monthly_debt
    risk_factors := risk_factors
    recommendations := recommendations }

/-- Fields of the dict returned by `_analyze_structured_data` (the `metrics`
sub-dict flattened into the report). -/
structure ComplianceReport where
  approved : Bool
  confidence : ℚ
  compliance_issues : List String
  recommendations : List String
  credit_score : ℚ
  debt_to_income_ratio : ℚ
  annual_income : ℚ
  monthly_debt : ℚ
  loan_amount : ℚ

/-- Compliance checks of `_analyze_structured_data`, lines 161-200: issue
and recommendation accumulation followed by the approval rule
`len(compliance_issues) == 0 and credit_score >= 620 and debt_to_income <= 43`. -/
def complianceChecks (credit_score annual_income monthly_debt loan_amount
    debt_to_income : ℚ) : ComplianceReport :=
  let csPart : List String × List String :=
    if credit_score < 620 then
      (["Credit score below conventional lending minimum (620)"],
       ["Consider FHA loan options or credit improvement strategies"])
    else if credit_score < 740 then
      ([], ["Credit score could be improved for better rates"])
    else ([], [])
  let dtiPart : List String × List String :=
    if debt_to_income > 43 then
      (["Debt-to-income ratio (" ++ fmtQ1 debt_to_income ++ "%) exceeds recommended maximum (43%)"],
       ["Consider debt reduction or lower loan amount"])
    else if debt_to_income > 36 then
      ([], ["DTI ratio is acceptable but on the higher side"])
    else ([], [])
  let incPart : List String × List String :=
    if annual_income < 30000 then
      (["Annual income may be insufficient for mortgage qualification"],
       ["Verify income documentation and consider co-signer"])
    else ([], [])
  let compliance_issues := csPart.1 ++ dtiPart.1 ++ incPart.1
  let recommendations := csPart.2 ++ dtiPart.2 ++ incPart.2
  let approved :=
    compliance_issues.isEmpty && decide (credit_score ≥ 620) && decide (debt_to_income ≤ 43)
  { approved := approved
    confidence := if approved then 85/100 else 65/100
    compliance_issues := compliance_issues
    recommendations := recommendations
    credit_score := credit_score
    debt_to_income_ratio := roundTo2 debt_to_income
    annual_income := annual_income
    monthly_debt := monthly_debt
    loan_amount := loan_amount }

/-- Direct-structure branch of `_analyze_structured_data` (lines 150-159
followed by the checks): fields read from the top level and the DTI computed
from income and monthly debt. -/
def analyzeStructuredDirect (credit_score annual_income monthly_debt loan_amount : ℚ) :
    ComplianceReport :=
  let monthly_income : ℚ := if annual_income > 0 then annual_income / 12 else 0
  let debt_to_income : ℚ :=
    if monthly_income > 0 then monthly_debt / monthly_income * 100 else 0
  complianceChecks credit_score annual_income monthly_debt loan_amount debt_to_income

/-! ## General lemmas about the embedding -/

lemma stateGet_route_decision (st : RoutingState) (d : PyValue) :
    stateGet st "route_decision" d = .str st.route_decision := rfl

lemma stateGet_document_data (st : RoutingState) (d : PyValue) :
    stateGet st "document_data" d = st.document_data := rfl

lemma stateGet_risk_assessment (st : RoutingState) (d : PyValue) :
    stateGet st "risk_assessment" d = st.risk_assessment := rfl

lemma stateGet_compliance_result (st : RoutingState) (d : PyValue) :
    stateGet st "compliance_result" d = st.compliance_result := rfl

lemma stateGet_final_result (st : RoutingState) (d : PyValue) :
    stateGet st "final_result" d = st.final_result := rfl

lemma riskLocalInput_eq (st : RoutingState) : riskLocalInput st = st.document_data := rfl

lemma complianceLocalInputData_eq (st : RoutingState) :
    complianceLocalInputData st = st.risk_assessment := rfl

lemma stepItems_eq (st : RoutingState) :
    stepItems st =
      [("document_data", st.document_data), ("risk_assessment", st.risk_assessment),
       ("compliance_result", st.compliance_result), ("final_result", st.final_result)] := rfl

lemma validateRoute_cases (s : String) :
    validateRoute s = "document_only" ∨ validateRoute s = "risk_only" ∨
    validateRoute s = "compliance_only" ∨ validateRoute s = "full_pipeline" := by
  unfold validateRoute
  by_cases h : pyLower (pyStrip s) ∈ validRoutes
  · rw [if_pos h]
    have h2 := h
    simp only [validRoutes, List.mem_cons, List.mem_singleton, List.not_mem_nil, or_false] at h2
    rcases h2 with h2 | h2 | h2 | h2 <;> simp [h2]
  · rw [if_neg h]
    simp

lemma processDocument_query (call : DocCall) (st : RoutingState) :
    (processDocument call st).query = st.query := by
  cases call with
  | noAgent r => cases r <;> rfl
  | agent o => rfl

lemma processDocument_risk (call : DocCall) (st : RoutingState) :
    (processDocument call st).risk_assessment = st.risk_assessment := by
  cases call with
  | noAgent r => cases r <;> rfl
  | agent o => rfl

lemma processDocument_compliance (call : DocCall) (st : RoutingState) :
    (processDocument call st).compliance_result = st.compliance_result := by
  cases call with
  | noAgent r => cases r <;> rfl
  | agent o => rfl

lemma assessRisk_query (call : RiskCall) (st : RoutingState) :
    (assessRisk call st).query = st.query := by
  cases call with
  | noAgent f => cases h : f (riskLocalInput st) <;> simp [assessRisk, h]
  | agent o => rfl

lemma assessRisk_document (call : RiskCall) (st : RoutingState) :
    (assessRisk call st).document_data = st.document_data := by
  cases call with
  | noAgent f => cases h : f (riskLocalInput st) <;> simp [assessRisk, h]
  | agent o => rfl

lemma assessRisk_compliance (call : RiskCall) (st : RoutingState) :
    (assessRisk call st).compliance_result = st.compliance_result := by
  cases call with
  | noAgent f => cases h : f (riskLocalInput st) <;> simp [assessRisk, h]
  | agent o => rfl

lemma checkCompliance_query (call : CompCall) (st : RoutingState) :
    (checkCompliance call st).query = st.query := by
  cases call with
  | noAgent f => cases h : f (complianceLocalInput st) <;> simp [checkCompliance, h]
  | agent o => rfl

lemma checkCompliance_document (call : CompCall) (st : RoutingState) :
    (checkCompliance call st).document_data = st.document_data := by
  cases call with
  | noAgent f => cases h : f (complianceLocalInput st) <;> simp [checkCompliance, h]
  | agent o => rfl

lemma checkCompliance_risk (call : CompCall) (st : RoutingState) :
    (checkCompliance call st).risk_assessment = st.risk_assessment := by
  cases call with
  | noAgent f => cases h : f (complianceLocalInput st) <;> simp [checkCompliance, h]
  | agent o => rfl

lemma aggregateResults_document (sm p : Except String String) (st : RoutingState) :
    (aggregateResults sm p st).document_data = st.document_data := by
  unfold aggregateResults; cases aggregateBody sm p st <;> rfl

lemma aggregateResults_risk (sm p : Except String String) (st : RoutingState) :
    (aggregateResults sm p st).risk_assessment = st.risk_assessment := by
  unfold aggregateResults; cases aggregateBody sm p st <;> rfl

lemma aggregateResults_compliance (sm p : Except String String) (st : RoutingState) :
    (aggregateResults sm p st).compliance_result = st.compliance_result := by
  unfold aggregateResults; cases aggregateBody sm p st <;> rfl

lemma aggregateBody_ok_ne_nil (sm p : Except String String) (st : RoutingState)
    (fr : List (String × PyValue)) (h : aggregateBody sm p st = .ok fr) : fr ≠ [] := by
  unfold aggregateBody at h
  cases hf : successfulItems st with
  | error e => rw [hf] at h; exact absurd h (by simp)
  | ok l =>
    rw [hf] at h
    dsimp only at h
    cases hs : sm with
    | error e => rw [hs] at h; exact absurd h (by simp)
    | ok s =>
      rw [hs] at h
      dsimp only at h
      cases hp : generatePdfReport p
          (finalResultBase st ((l.length : ℚ)) ++ [("summary", .str s)]) with
      | none =>
        rw [hp] at h
        simp only [Except.ok.injEq] at h
        subst h
        simp [finalResultBase]
      | some path =>
        rw [hp] at h
        simp only [Except.ok.injEq] at h
        subst h
        simp [finalResultBase]

lemma aggregateResults_final_ne (sm p : Except String String) (st : RoutingState) :
    (aggregateResults sm p st).final_result ≠ PyValue.dict [] := by
  unfold aggregateResults
  cases h : aggregateBody sm p st with
  | error e => simp
  | ok fr =>
    have hne := aggregateBody_ok_ne_nil sm p st fr h
    simp [hne]

lemma runFromRoute_full_pipeline (env : PipelineEnv) (q : String) :
    runFromRoute env "full_pipeline" q =
      aggregateResults env.summarizer env.pdfBuild
        (checkCompliance env.compCall
          (assessRisk env.riskCall
            (processDocument env.docCall
              (makeRoutingDecision "full_pipeline" (initialState q))))) := rfl

lemma runFromRoute_document_only (env : PipelineEnv) (q : String) :
    runFromRoute env "document_only" q =
      aggregateResults env.summarizer env.pdfBuild
        (checkCompliance env.compCall
          (assessRisk env.riskCall
            (processDocument env.docCall
              (makeRoutingDecision "document_only" (initialState q))))) := rfl

lemma runFromRoute_risk_only (env : PipelineEnv) (q : String) :
    runFromRoute env "risk_only" q =
      aggregateResults env.summarizer env.pdfBuild
        (checkCompliance env.compCall
          (assessRisk env.riskCall
            (makeRoutingDecision "risk_only" (initialState q)))) := rfl

lemma runFromRoute_compliance_only (env : PipelineEnv) (q : String) :
    runFromRoute env "compliance_only" q =
      aggregateResults env.summarizer env.pdfBuild
        (checkCompliance env.compCall
          (makeRoutingDecision "compliance_only" (initialState q))) := rfl

/-- Agreement of two states on the task text and the four result slots (the
fields a stage handler may read or write apart from the diagnostic log and
the route label). -/
def WorkerSlotsEq (st su : RoutingState) : Prop :=
  st.query = su.query ∧ st.document_data = su.document_data ∧
    st.risk_assessment = su.risk_assessment ∧ st.compliance_result = su.compliance_result

lemma processDocument_congr (call : DocCall) (st su : RoutingState)
    (h : WorkerSlotsEq st su) :
    WorkerSlotsEq (processDocument call st) (processDocument call su) := by
  obtain ⟨hq, hd, hr, hc⟩ := h
  cases call with
  | noAgent r => cases r <;> exact ⟨hq, rfl, hr, hc⟩
  | agent o => exact ⟨hq, rfl, hr, hc⟩

lemma assessRisk_congr (call : RiskCall) (st su : RoutingState)
    (h : WorkerSlotsEq st su) : WorkerSlotsEq (assessRisk call st) (assessRisk call su) := by
  obtain ⟨hq, hd, hr, hc⟩ := h
  cases call with
  | noAgent f =>
    have hin : riskLocalInput st = riskLocalInput su := by
      rw [riskLocalInput_eq, riskLocalInput_eq, hd]
    unfold assessRisk
    rw [hin]
    cases h2 : f (riskLocalInput su) <;>
      simp only [h2] <;> exact ⟨hq, hd, rfl, hc⟩
  | agent o => exact ⟨hq, hd, rfl, hc⟩

lemma checkCompliance_congr (call : CompCall) (st su : RoutingState)
    (h : WorkerSlotsEq st su) :
    WorkerSlotsEq (checkCompliance call st) (checkCompliance call su) := by
  obtain ⟨hq, hd, hr, hc⟩ := h
  cases call with
  | noAgent f =>
    have hin : complianceLocalInput st = complianceLocalInput su := by
      unfold complianceLocalInput
      rw [complianceLocalInputData_eq, complianceLocalInputData_eq, hr]
    unfold checkCompliance
    rw [hin]
    cases h2 : f (complianceLocalInput su) <;>
      simp only [h2] <;> exact ⟨hq, hd, hr, rfl⟩
  | agent o => exact ⟨hq, hd, hr, rfl⟩

lemma aggregateResults_congr (sm p : Except String String) (st su : RoutingState)
    (h : WorkerSlotsEq st su) :
    WorkerSlotsEq (aggregateResults sm p st) (aggregateResults sm p su) := by
  obtain ⟨hq, hd, hr, hc⟩ := h
  refine ⟨?_, ?_, ?_, ?_⟩
  · unfold aggregateResults
    cases aggregateBody sm p st <;> cases aggregateBody sm p su <;> simpa using hq
  · rw [aggregateResults_document, aggregateResults_document, hd]
  · rw [aggregateResults_risk, aggregateResults_risk, hr]
  · rw [aggregateResults_compliance, aggregateResults_compliance, hc]

lemma applyStage_congr (env : PipelineEnv) (n : Node) (st su : RoutingState)
    (h : WorkerSlotsEq st su) : WorkerSlotsEq (applyStage env st n) (applyStage env su n) := by
  cases n with
  | route_decision => exact h
  | document_processing => exact processDocument_congr _ _ _ h
  | risk_assessment => exact assessRisk_congr _ _ _ h
  | compliance_check => exact checkCompliance_congr _ _ _ h
  | final_aggregation => exact aggregateResults_congr _ _ _ _ h

lemma foldl_stages_congr (env : PipelineEnv) (ns : List Node) (st su : RoutingState)
    (h : WorkerSlotsEq st su) :
    WorkerSlotsEq (ns.foldl (applyStage env) st) (ns.foldl (applyStage env) su) := by
  induction ns generalizing st su with
  | nil => exact h
  | cons n ns ih => exact ih _ _ (applyStage_congr env n st su h)

/-! ## Lookup helpers and slot shape -/

/-- Key lookup on a JSON-like value (dicts only). -/
def pyLookup (v : PyValue) (k : String) : Option PyValue :=
  match v with
  | .dict d => dictLookup d k
  | _ => none

/-- Key presence on a JSON-like value. -/
def pyHasKey (v : PyValue) (k : String) : Bool :=
  (pyLookup v k).isSome

/-- Field of the `processing_summary` sub-dict of a `final_result` value. -/
def processingSummaryField (v : PyValue) (k : String) : Option PyValue :=
  match pyLookup v "processing_summary" with
  | some ps => pyLookup ps k
  | none => none

/-- Values on which the Python membership test `'error' in v` does not
raise: dicts, lists and strings. -/
def iterableSlot : PyValue → Bool
  | .dict _ => true
  | .list _ => true
  | .str _ => true
  | _ => false

/-- Outcome of `'error' not in v` when it does not raise. -/
def slotNoError (v : PyValue) : Bool :=
  match pyIn "error" v with
  | .ok b => !b
  | .error _ => false

/-- Number of state slots whose value lacks an `error` key — what
`successful_steps` actually counts. -/
def errFreeSlotCount (st : RoutingState) : ℕ :=
  ((stepItems st).filter (fun kv => slotNoError kv.2)).length

/-- The untouched-slot sentinel: the empty dict every slot starts from. -/
def isEmptyDict : PyValue → Bool
  | .dict [] => true
  | _ => false

/-- Number of worker-stage slots that differ from their initialisation —
the count of slots actually written by a stage handler during a run (the
handlers never write the empty dict: every branch stores a nonempty dict or
a nonempty parsed payload). -/
def populatedStageSlots (st : RoutingState) : ℕ :=
  (([st.document_data, st.risk_assessment, st.compliance_result]).filter
    (fun v => !(isEmptyDict v))).length

lemma pyDictGet_ok_dict (v : PyValue) (k : String) (dflt x : PyValue)
    (h : pyDictGet v k dflt = .ok x) : ∃ d, v = PyValue.dict d := by
  cases v <;> simp [pyDictGet] at h <;> exact ⟨_, rfl⟩

lemma pyIn_ok_iterable (n : String) (v : PyValue) (b : Bool) (h : pyIn n v = .ok b) :
    iterableSlot v = true := by
  cases v <;> simp [pyIn, iterableSlot] at h ⊢

lemma iterableSlot_dict (d : List (String × PyValue)) :
    iterableSlot (PyValue.dict d) = true := rfl

lemma selectWorkerResult_ok_dict (pk lk : String) (v r : PyValue)
    (h : selectWorkerResult pk lk v = .ok r) : ∃ d, r = PyValue.dict d := by
  unfold selectWorkerResult at h
  simp only [bind, Except.bind, pure, Except.pure] at h
  cases h1 : pyIn pk v with
  | error e => rw [h1] at h; cases h
  | ok b =>
    rw [h1] at h
    dsimp only at h
    cases b with
    | true =>
      try dsimp only at h
      cases h2 : pySubscript v pk with
      | error e => rw [h2] at h; cases h
      | ok r2 =>
        rw [h2] at h
        dsimp only at h
        cases h3 : pyDictGet r2 lk (.str "unknown") with
        | error e => rw [h3] at h; cases h
        | ok x =>
          rw [h3] at h
          dsimp only at h
          cases h
          exact pyDictGet_ok_dict _ _ _ _ h3
    | false =>
      try dsimp only at h
      cases h2 : pyIn "results" v with
      | error e => rw [h2] at h; cases h
      | ok hasRes =>
        rw [h2] at h
        dsimp only at h
        cases hasRes with
        | true =>
          try dsimp only at h
          cases h3 : pySubscript v "results" with
          | error e => rw [h3] at h; cases h
          | ok res =>
            rw [h3] at h
            dsimp only at h
            cases ht : pyTruthy res with
            | true =>
              rw [ht] at h
              try dsimp only at h
              cases h4 : pyIndex0 res with
              | error e => rw [h4] at h; cases h
              | ok d0 =>
                rw [h4] at h
                dsimp only at h
                cases h5 : pyDictGet d0 lk (.str "unknown") with
                | error e => rw [h5] at h; cases h
                | ok x =>
                  rw [h5] at h
                  dsimp only at h
                  cases h
                  exact pyDictGet_ok_dict _ _ _ _ h5
            | false =>
              rw [ht] at h
              try dsimp only at h
              cases h5 : pyDictGet v lk (.str "unknown") with
              | error e => rw [h5] at h; cases h
              | ok x =>
                rw [h5] at h
                dsimp only at h
                cases h
                exact pyDictGet_ok_dict _ _ _ _ h5
        | false =>
          try dsimp only at h
          cases h5 : pyDictGet v lk (.str "unknown") with
          | error e => rw [h5] at h; cases h
          | ok x =>
            rw [h5] at h
            dsimp only at h
            cases h
            exact pyDictGet_ok_dict _ _ _ _ h5

lemma selectDocumentData_ok_iterable (v d : PyValue) (h : selectDocumentData v = .ok d) :
    iterableSlot d = true := by
  unfold selectDocumentData at h
  simp only [bind, Except.bind, pure, Except.pure] at h
  cases h1 : pyIn "results" v with
  | error e => rw [h1] at h; cases h
  | ok b =>
    rw [h1] at h
    dsimp only at h
    cases b with
    | true =>
      try dsimp only at h
      cases h2 : pySubscript v "results" with
      | error e => rw [h2] at h; cases h
      | ok res =>
        rw [h2] at h
        dsimp only at h
        cases ht : pyTruthy res with
        | true =>
          rw [ht] at h
          try dsimp only at h
          cases h3 : pyIndex0 res with
          | error e => rw [h3] at h; cases h
          | ok d0 =>
            rw [h3] at h
            dsimp only at h
            cases h4 : pyDictGet d0 "applicant_name" (.str "Unknown") with
            | error e => rw [h4] at h; cases h
            | ok x =>
              rw [h4] at h
              dsimp only at h
              cases h
              obtain ⟨dd, rfl⟩ := pyDictGet_ok_dict _ _ _ _ h4
              rfl
        | false =>
          rw [ht] at h
          try dsimp only at h
          cases h4 : pyIn "applicant_name" v with
          | error e => rw [h4] at h; cases h
          | ok x =>
            rw [h4] at h
            dsimp only at h
            cases h
            exact pyIn_ok_iterable _ _ _ h1
    | false =>
      try dsimp only at h
      cases h4 : pyIn "applicant_name" v with
      | error e => rw [h4] at h; cases h
      | ok x =>
        rw [h4] at h
        dsimp only at h
        cases h
        exact pyIn_ok_iterable _ _ _ h1

/-- Sanity of the document stage's local-branch oracle: the Python local
branch returns a dict (`DocumentAgent.process_document` and the hard-coded
sample both do). -/
def DocCallSane : DocCall → Prop
  | .noAgent (.ok v) => iterableSlot v = true
  | _ => True

/-- Sanity of the risk stage's local-branch oracle:
`CreditRiskAgent.process_document_data` returns a dict on every path. -/
def RiskCallSane : RiskCall → Prop
  | .noAgent f => ∀ x v, f x = .ok v → iterableSlot v = true
  | _ => True

/-- Sanity of the compliance stage's local-branch oracle:
`ComplianceAgent.process` returns a dict on every path. -/
def CompCallSane : CompCall → Prop
  | .noAgent f => ∀ x v, f x = .ok v → iterableSlot v = true
  | _ => True

/-- Environments whose local-branch oracles respect the local agents'
documented dict-shaped contracts. -/
def EnvSane (env : PipelineEnv) : Prop :=
  DocCallSane env.docCall ∧ RiskCallSane env.riskCall ∧ CompCallSane env.compCall

/-- All four slots of a state are values on which the aggregation membership
test cannot raise. -/
def IterableSlots (st : RoutingState) : Prop :=
  iterableSlot st.document_data = true ∧ iterableSlot st.risk_assessment = true ∧
    iterableSlot st.compliance_result = true ∧ iterableSlot st.final_result = true

lemma processDocument_doc_iterable (call : DocCall) (st : RoutingState)
    (h : DocCallSane call) :
    iterableSlot (processDocument call st).document_data = true := by
  cases call with
  | noAgent r =>
    cases r with
    | ok v => simpa [processDocument] using h
    | error e => simp [processDocument, iterableSlot]
  | agent o =>
    cases o with
    | raised e => rfl
    | textReply raw => rfl
    | jsonReply v =>
      simp only [processDocument, processDocumentRemote]
      cases hs : selectDocumentData v with
      | ok d => simpa using selectDocumentData_ok_iterable v d hs
      | error e => simp [iterableSlot]

lemma assessRisk_risk_iterable (call : RiskCall) (st : RoutingState)
    (h : RiskCallSane call) :
    iterableSlot (assessRisk call st).risk_assessment = true := by
  cases call with
  | noAgent f =>
    cases hr : f (riskLocalInput st) with
    | ok v => simp only [assessRisk, hr]; exact h _ _ hr
    | error e => simp [assessRisk, hr, iterableSlot]
  | agent o =>
    cases o with
    | raised e => rfl
    | textReply raw => rfl
    | jsonReply v =>
      simp only [assessRisk, assessRiskRemote, selectRiskResult]
      cases hs : selectWorkerResult "risk_analysis" "risk_level" v with
      | ok r =>
        obtain ⟨d, rfl⟩ := selectWorkerResult_ok_dict _ _ _ _ hs
        simp [iterableSlot]
      | error e => simp [iterableSlot]

lemma checkCompliance_comp_iterable (call : CompCall) (st : RoutingState)
    (h : CompCallSane call) :
    iterableSlot (checkCompliance call st).compliance_result = true := by
  cases call with
  | noAgent f =>
    cases hr : f (complianceLocalInput st) with
    | ok v => simp only [checkCompliance, hr]; exact h _ _ hr
    | error e => simp [checkCompliance, hr, iterableSlot]
  | agent o =>
    cases o with
    | raised e => rfl
    | textReply raw => rfl
    | jsonReply v =>
      simp only [checkCompliance, checkComplianceRemote, selectComplianceResult]
      cases hs : selectWorkerResult "compliance_analysis" "approved" v with
      | ok r =>
        obtain ⟨d, rfl⟩ := selectWorkerResult_ok_dict _ _ _ _ hs
        simp [iterableSlot]
      | error e => simp [iterableSlot]

lemma processDocument_final (call : DocCall) (st : RoutingState) :
    (processDocument call st).final_result = st.final_result := by
  cases call with
  | noAgent r => cases r <;> rfl
  | agent o => rfl

lemma assessRisk_final (call : RiskCall) (st : RoutingState) :
    (assessRisk call st).final_result = st.final_result := by
  cases call with
  | noAgent f => cases h : f (riskLocalInput st) <;> simp [assessRisk, h]
  | agent o => rfl

lemma checkCompliance_final (call : CompCall) (st : RoutingState) :
    (checkCompliance call st).final_result = st.final_result := by
  cases call with
  | noAgent f => cases h : f (complianceLocalInput st) <;> simp [checkCompliance, h]
  | agent o => rfl

/-- Boolean outcome of `needle in v` on a value where the test cannot raise. -/
def pyInBool (needle : String) (v : PyValue) : Bool :=
  match pyIn needle v with
  | .ok b => b
  | .error _ => false

lemma pyIn_iterable (needle : String) (v : PyValue) (h : iterableSlot v = true) :
    pyIn needle v = .ok (pyInBool needle v) := by
  cases v <;> simp [pyIn, pyInBool] <;> simp [iterableSlot] at h

lemma successfulItems_ok (st : RoutingState)
    (hd : iterableSlot st.document_data = true)
    (hr : iterableSlot st.risk_assessment = true)
    (hc : iterableSlot st.compliance_result = true)
    (hf : iterableSlot st.final_result = true) :
    successfulItems st = .ok ((stepItems st).filter (fun kv => slotNoError kv.2)) := by
  have ld := pyIn_iterable "error" _ hd
  have lr := pyIn_iterable "error" _ hr
  have lc := pyIn_iterable "error" _ hc
  have lf := pyIn_iterable "error" _ hf
  have e1 : endsWithStepSuffix "messages" = false := rfl
  have e2 : endsWithStepSuffix "query" = false := rfl
  have e3 : endsWithStepSuffix "route_decision" = false := rfl
  have e4 : endsWithStepSuffix "document_data" = true := rfl
  have e5 : endsWithStepSuffix "risk_assessment" = true := rfl
  have e6 : endsWithStepSuffix "compliance_result" = true := rfl
  have e7 : endsWithStepSuffix "final_result" = true := rfl
  unfold successfulItems stateItems
  rw [stepItems_eq]
  simp only [successfulItemsAux, e1, e2, e3, e4, e5, e6, e7, if_true, if_false,
    Bool.false_eq_true, ld, lr, lc, lf, List.filter, slotNoError]
  cases pyInBool "error" st.document_data <;>
    cases pyInBool "error" st.risk_assessment <;>
      cases pyInBool "error" st.compliance_result <;>
        cases pyInBool "error" st.final_result <;> simp

lemma aggregateResults_final_char (sm p : Except String String) (st : RoutingState)
    (s : String) (hs : sm = Except.ok s) (hit : IterableSlots st) :
    (aggregateResults sm p st).final_result =
      .dict (match generatePdfReport p
                 (finalResultBase st ((((stepItems st).filter (fun kv => slotNoError kv.2)).length : ℕ) : ℚ)
                   ++ [("summary", .str s)]) with
             | some path =>
                 finalResultBase st ((((stepItems st).filter (fun kv => slotNoError kv.2)).length : ℕ) : ℚ)
                   ++ [("summary", .str s)] ++ [("output_pdf_path", .str path)]
             | none =>
                 finalResultBase st ((((stepItems st).filter (fun kv => slotNoError kv.2)).length : ℕ) : ℚ)
                   ++ [("summary", .str s)]) := by
  obtain ⟨hd, hr, hc, hf⟩ := hit
  have hsucc := successfulItems_ok st hd hr hc hf
  unfold aggregateResults aggregateBody
  rw [hsucc, hs]
  dsimp only
  cases hg : generatePdfReport p
      (finalResultBase st ((((stepItems st).filter (fun kv => slotNoError kv.2)).length : ℕ) : ℚ)
        ++ [("summary", .str s)]) <;> rfl

lemma generatePdfReport_error (pe : String) (fr : List (String × PyValue)) :
    generatePdfReport (.error pe) fr = none := by
  unfold generatePdfReport
  dsimp only
  split_ifs with h <;> rfl

lemma preAgg_iterable_doc_entry (env : PipelineEnv) (s q : String) (hsane : EnvSane env) :
    IterableSlots
      (checkCompliance env.compCall
        (assessRisk env.riskCall
          (processDocument env.docCall (makeRoutingDecision s (initialState q))))) := by
  obtain ⟨hd, hr, hc⟩ := hsane
  refine ⟨?_, ?_, ?_, ?_⟩
  · rw [checkCompliance_document, assessRisk_document]
    exact processDocument_doc_iterable _ _ hd
  · rw [checkCompliance_risk]
    exact assessRisk_risk_iterable _ _ hr
  · exact checkCompliance_comp_iterable _ _ hc
  · rw [checkCompliance_final, assessRisk_final, processDocument_final]
    rfl

lemma preAgg_iterable_risk_entry (env : PipelineEnv) (s q : String) (hsane : EnvSane env) :
    IterableSlots
      (checkCompliance env.compCall
        (assessRisk env.riskCall (makeRoutingDecision s (initialState q)))) := by
  obtain ⟨hd, hr, hc⟩ := hsane
  refine ⟨?_, ?_, ?_, ?_⟩
  · rw [checkCompliance_document, assessRisk_document]
    rfl
  · rw [checkCompliance_risk]
    exact assessRisk_risk_iterable _ _ hr
  · exact checkCompliance_comp_iterable _ _ hc
  · rw [checkCompliance_final, assessRisk_final]
    rfl

lemma preAgg_iterable_comp_entry (env : PipelineEnv) (s q : String) (hsane : EnvSane env) :
    IterableSlots (checkCompliance env.compCall (makeRoutingDecision s (initialState q))) := by
  obtain ⟨hd, hr, hc⟩ := hsane
  refine ⟨?_, ?_, ?_, ?_⟩
  · rw [checkCompliance_document]
    rfl
  · rw [checkCompliance_risk]
    rfl
  · exact checkCompliance_comp_iterable _ _ hc
  · rw [checkCompliance_final]
    rfl

lemma aggregateResults_fields (sm p : Except String String) (st : RoutingState) (t : String)
    (hs : sm = Except.ok t) (hit : IterableSlots st) :
    processingSummaryField (aggregateResults sm p st).final_result "total_steps"
        = some (.num 4)
    ∧ processingSummaryField (aggregateResults sm p st).final_result "successful_steps"
        = some (.num (errFreeSlotCount st))
    ∧ pyHasKey (aggregateResults sm p st).final_result "processing_summary" = true
    ∧ pyLookup (aggregateResults sm p st).final_result "summary" = some (.str t)
    ∧ pyLookup (aggregateResults sm p st).final_result "document_data" = some st.document_data
    ∧ pyLookup (aggregateResults sm p st).final_result "risk_assessment" = some st.risk_assessment
    ∧ pyLookup (aggregateResults sm p st).final_result "compliance_result" = some st.compliance_result := by
  rw [aggregateResults_final_char sm p st t hs hit]
  cases hg : generatePdfReport p
      (finalResultBase st ((((stepItems st).filter (fun kv => slotNoError kv.2)).length : ℕ) : ℚ)
        ++ [("summary", .str t)]) <;>
    refine ⟨?_, ?_, ?_, ?_, ?_, ?_, ?_⟩ <;>
      simp [processingSummaryField, pyLookup, pyHasKey, dictLookup, finalResultBase,
        stepItems_eq, List.find?, errFreeSlotCount, stateGet_document_data,
        stateGet_risk_assessment, stateGet_compliance_result]

lemma aggregateResults_no_pdf_path (sm : Except String String) (st : RoutingState) (t pe : String)
    (hs : sm = Except.ok t) (hit : IterableSlots st) :
    pyHasKey (aggregateResults sm (.error pe) st).final_result "output_pdf_path" = false := by
  rw [aggregateResults_final_char sm (.error pe) st t hs hit, generatePdfReport_error]
  simp [pyHasKey, pyLookup, dictLookup, finalResultBase, List.find?]

lemma makeRoutingDecision_congr (s t : String) (st : RoutingState)
    (h : validateRoute s = validateRoute t) :
    makeRoutingDecision s st = makeRoutingDecision t st := by
  unfold makeRoutingDecision
  rw [h]

lemma runFromRoute_content (env : PipelineEnv) (s t q : String)
    (h : validateRoute s = validateRoute t) :
    runFromRoute env s q = runFromRoute env t q := by
  unfold runFromRoute
  rw [makeRoutingDecision_congr s t _ h]

/-- Every classifier output drives the run to the aggregation stage: the run
is an application of `aggregateResults` to a pre-aggregation state whose
slots are membership-safe whenever the environment's local oracles respect
the local agents' dict contracts. -/
lemma runFromRoute_to_agg (env : PipelineEnv) (s q : String) :
    ∃ stPre, runFromRoute env s q = aggregateResults env.summarizer env.pdfBuild stPre
      ∧ (EnvSane env → IterableSlots stPre)
      ∧ ∃ stMid, stPre = checkCompliance env.compCall stMid := by
  rcases validateRoute_cases s with h | h | h | h
  · refine ⟨checkCompliance env.compCall (assessRisk env.riskCall
        (processDocument env.docCall (makeRoutingDecision "document_only" (initialState q)))),
        ?_, ?_, ⟨_, rfl⟩⟩
    · rw [runFromRoute_content env s "document_only" q (by rw [h]; rfl),
        runFromRoute_document_only]
    · exact fun hs => preAgg_iterable_doc_entry env "document_only" q hs
  · refine ⟨checkCompliance env.compCall (assessRisk env.riskCall
        (makeRoutingDecision "risk_only" (initialState q))), ?_, ?_, ⟨_, rfl⟩⟩
    · rw [runFromRoute_content env s "risk_only" q (by rw [h]; rfl),
        runFromRoute_risk_only]
    · exact fun hs => preAgg_iterable_risk_entry env "risk_only" q hs
  · refine ⟨checkCompliance env.compCall (makeRoutingDecision "compliance_only" (initialState q)),
        ?_, ?_, ⟨_, rfl⟩⟩
    · rw [runFromRoute_content env s "compliance_only" q (by rw [h]; rfl),
        runFromRoute_compliance_only]
    · exact fun hs => preAgg_iterable_comp_entry env "compliance_only" q hs
  · refine ⟨checkCompliance env.compCall (assessRisk env.riskCall
        (processDocument env.docCall (makeRoutingDecision "full_pipeline" (initialState q)))),
        ?_, ?_, ⟨_, rfl⟩⟩
    · rw [runFromRoute_content env s "full_pipeline" q (by rw [h]; rfl),
        runFromRoute_full_pipeline]
    · exact fun hs => preAgg_iterable_doc_entry env "full_pipeline" q hs

lemma processQuery_eq_final (env : PipelineEnv) (q s : String)
    (hcl : env.classifier = Except.ok s) :
    processQuery env q = (runFromRoute env s q).final_result := by
  unfold processQuery runWorkflow
  rw [hcl]
  dsimp only
  rw [stateGet_final_result]

/-! ## Claim theorems -/

/-- Environment of a `compliance_only` run whose compliance worker answers
successfully while the document and risk stages never execute. -/
def c1Env : PipelineEnv :=
  { classifier := .ok "compliance_only"
    docCall := .agent (.raised "unused")
    riskCall := .agent (.raised "unused")
    compCall := .agent (.jsonReply (.dict [("compliance_analysis", .dict [("approved", .boolV true)])]))
    summarizer := .ok "All good."
    pdfBuild := .error "io error" }

/-- Claim C1, counterexample. C1 asserts that `successful_steps` equals the
number of stage slots actually populated by a stage handler during the run.
In a successful `compliance_only` run only one stage slot is populated
(`compliance_result`; `document_data` and `risk_assessment` keep their
initial `\x7b\x7d`), yet `processing_summary.successful_steps` reports 4,
because the count includes every suffix-matching slot without an `error`
key — untouched empty slots and `final_result` among them. -/
theorem c1_counterexample :
    (runWorkflow c1Env "check the application for compliance").map
        (fun st => (processingSummaryField st.final_result "successful_steps",
                    populatedStageSlots st, st.document_data, st.risk_assessment))
      = .ok (some (.num 4), 1, .dict [], .dict [])
    ∧ (4 : ℚ) ≠ (1 : ℚ) := by
  exact ⟨rfl, by norm_num⟩

/-- Claim C1, amended. `processing_summary` reports `total_steps = 4` (the
constant number of suffix-matching state keys) and `successful_steps` equal
to the number of the four slots whose value lacks an `error` key — a count
that includes untouched empty slots, not the number of slots populated
during the run. -/
theorem c1_amended (sm p : Except String String) (st : RoutingState) (s : String)
    (hs : sm = Except.ok s) (hit : IterableSlots st) :
    processingSummaryField (aggregateResults sm p st).final_result "total_steps"
        = some (.num 4)
    ∧ processingSummaryField (aggregateResults sm p st).final_result "successful_steps"
        = some (.num (errFreeSlotCount st)) := by
  have hf := aggregateResults_fields sm p st s hs hit
  exact ⟨hf.1, hf.2.1⟩

/-- Claim C1, witness for the amended theorem at the freshly initialised
state with a successful summariser. -/
theorem c1_amended_witness :
    processingSummaryField
        (aggregateResults (.ok "s") (.error "io") (initialState "q")).final_result "total_steps"
      = some (.num 4)
    ∧ processingSummaryField
        (aggregateResults (.ok "s") (.error "io") (initialState "q")).final_result "successful_steps"
      = some (.num (errFreeSlotCount (initialState "q"))) :=
  c1_amended (.ok "s") (.error "io") (initialState "q") "s" rfl ⟨rfl, rfl, rfl, rfl⟩

/-- Claim C2, counterexample. C2 asserts `send_task` never raises past its
own boundary on transport failure; in the code an httpx timeout or refused
connection raised inside `send_message` propagates out of `send_task`
uncaught (only `KeyError`/`IndexError` from the nested payload path are
caught), which the model renders as an `Except.error` escaping `sendTask`. -/
theorem c2_counterexample :
    sendTask (.raise "httpx.ConnectTimeout: timed out") =
      Except.error "httpx.ConnectTimeout: timed out" := rfl

/-- Claim C2, amended. On transport failure `send_task` raises; the calling
stage handler catches the exception and records `{error: reason\x7d` in its
slot, so failures are encoded as return values one level up, at the stage
boundary; only a reply whose nested payload path is missing is converted
inside `send_task` itself, into the fallback string. -/
theorem c2_amended (m : String) (st : RoutingState) :
    sendTask (.raise m) = Except.error m
    ∧ (assessRisk (.agent (.raised m)) st).risk_assessment =
        PyValue.dict [("error", PyValue.str ("Credit risk agent communication failed: " ++ m))]
    ∧ sendTask (.respond (.dict [])) =
        Except.ok "Response received but couldn't extract text. Full response: \x7b\x7d" :=
  ⟨rfl, rfl, rfl⟩

/-- Environment of a `full_pipeline` run whose summarisation LLM call
raises during aggregation. -/
def c3Env : PipelineEnv :=
  { classifier := .ok "full_pipeline"
    docCall := .agent (.raised "doc down")
    riskCall := .agent (.raised "risk down")
    compCall := .agent (.raised "comp down")
    summarizer := .error "LLM unavailable"
    pdfBuild := .ok "report.pdf" }

/-- Claim C3, counterexample. C3 asserts a summarisation failure is
non-fatal, with `final_result` still carrying its stage slots and
`processing_summary`. In the code the summariser call sits inside the same
`try` as the slot assembly, so its exception reaches the `except` at line
491 and replaces `final_result` with a bare `{error: ...\x7d` mapping: the
returned value carries neither `processing_summary` nor any stage slot. -/
theorem c3_counterexample :
    processQuery c3Env "process this application"
      = .dict [("error", .str "Aggregation failed: LLM unavailable")]
    ∧ pyHasKey (processQuery c3Env "process this application") "processing_summary" = false
    ∧ pyHasKey (processQuery c3Env "process this application") "document_data" = false :=
  ⟨rfl, rfl, rfl⟩

/-- Claim C3, amended. Failure of the PDF report renderer is non-fatal
exactly as claimed: when the summariser succeeds and the renderer fails,
the caller still receives a `final_result` carrying `processing_summary`,
the prose `summary` and all three stage slots, merely without the
`output_pdf_path` field. (A summariser failure, by contrast, replaces
`final_result` with a bare error mapping — see the counterexample.) -/
theorem c3_amended (env : PipelineEnv) (q s t pe : String)
    (hcl : env.classifier = Except.ok s) (hsum : env.summarizer = Except.ok t)
    (hpdf : env.pdfBuild = Except.error pe) (hsane : EnvSane env) :
    pyHasKey (processQuery env q) "processing_summary" = true
    ∧ pyHasKey (processQuery env q) "summary" = true
    ∧ pyHasKey (processQuery env q) "document_data" = true
    ∧ pyHasKey (processQuery env q) "risk_assessment" = true
    ∧ pyHasKey (processQuery env q) "compliance_result" = true
    ∧ pyHasKey (processQuery env q) "output_pdf_path" = false := by
  obtain ⟨stPre, hrun, hiter, _⟩ := runFromRoute_to_agg env s q
  have hit := hiter hsane
  have hfields := aggregateResults_fields env.summarizer env.pdfBuild stPre t hsum hit
  have hq := processQuery_eq_final env q s hcl
  rw [hq, hrun]
  refine ⟨hfields.2.2.1, ?_, ?_, ?_, ?_, ?_⟩
  · unfold pyHasKey; rw [hfields.2.2.2.1]; rfl
  · unfold pyHasKey; rw [hfields.2.2.2.2.1]; rfl
  · unfold pyHasKey; rw [hfields.2.2.2.2.2.1]; rfl
  · unfold pyHasKey; rw [hfields.2.2.2.2.2.2]; rfl
  · rw [hpdf]
    exact aggregateResults_no_pdf_path env.summarizer stPre t pe hsum hit

/-- Claim C3, witness for the amended theorem: a `full_pipeline` run with
every worker call failing, a successful summariser and a failing renderer. -/
theorem c3_amended_witness :
    pyHasKey (processQuery
      { classifier := .ok "full_pipeline", docCall := .agent (.raised "down"),
        riskCall := .agent (.raised "down"), compCall := .agent (.raised "down"),
        summarizer := .ok "sum", pdfBuild := .error "io" } "q") "processing_summary" = true
    ∧ pyHasKey (processQuery
      { classifier := .ok "full_pipeline", docCall := .agent (.raised "down"),
        riskCall := .agent (.raised "down"), compCall := .agent (.raised "down"),
        summarizer := .ok "sum", pdfBuild := .error "io" } "q") "summary" = true
    ∧ pyHasKey (processQuery
      { classifier := .ok "full_pipeline", docCall := .agent (.raised "down"),
        riskCall := .agent (.raised "down"), compCall := .agent (.raised "down"),
        summarizer := .ok "sum", pdfBuild := .error "io" } "q") "document_data" = true
    ∧ pyHasKey (processQuery
      { classifier := .ok "full_pipeline", docCall := .agent (.raised "down"),
        riskCall := .agent (.raised "down"), compCall := .agent (.raised "down"),
        summarizer := .ok "sum", pdfBuild := .error "io" } "q") "risk_assessment" = true
    ∧ pyHasKey (processQuery
      { classifier := .ok "full_pipeline", docCall := .agent (.raised "down"),
        riskCall := .agent (.raised "down"), compCall := .agent (.raised "down"),
        summarizer := .ok "sum", pdfBuild := .error "io" } "q") "compliance_result" = true
    ∧ pyHasKey (processQuery
      { classifier := .ok "full_pipeline", docCall := .agent (.raised "down"),
        riskCall := .agent (.raised "down"), compCall := .agent (.raised "down"),
        summarizer := .ok "sum", pdfBuild := .error "io" } "q") "output_pdf_path" = false :=
  c3_amended _ "q" "full_pipeline" "sum" "io" rfl rfl rfl ⟨trivial, trivial, trivial⟩

/-- Environment of a `risk_only` run whose local risk oracle echoes the
input it receives, making the stage's actual input observable in the slot. -/
def c4Env : PipelineEnv :=
  { classifier := .ok "risk_only"
    docCall := .agent (.raised "unused")
    riskCall := .noAgent (fun v => .ok (.dict [("received_input", v)]))
    compCall := .agent (.raised "down")
    summarizer := .ok "s"
    pdfBuild := .error "io" }

/-- Claim C4, counterexample. C4 asserts that when no document stage ran
the risk stage's input is the raw task text. In a `risk_only` run the local
risk agent receives the empty dict `\x7b\x7d` — the untouched
`document_data` slot — not the task text, because `state.get` only falls
back when the key is absent and `process_query` initialises every slot; the
remote request likewise serialises `\x7b\x7d`, and for `compliance_only`
the local compliance input is the string `"\x7b\x7d"`, not the task text. -/
theorem c4_counterexample :
    (runWorkflow c4Env "Assess credit risk for the applicant").map
        (fun st => st.risk_assessment)
      = .ok (.dict [("received_input", .dict [])])
    ∧ riskRequest (makeRoutingDecision "risk_only" (initialState "Assess credit risk for the applicant"))
      = "Perform credit risk assessment on this applicant data: \x7b\x7d"
    ∧ complianceLocalInput (makeRoutingDecision "compliance_only"
        (initialState "Check the application for compliance")) = "\x7b\x7d"
    ∧ PyValue.dict [] ≠ PyValue.str "Assess credit risk for the applicant" :=
  ⟨rfl, rfl, rfl, fun h => PyValue.noConfusion h⟩

/-- Claim C4, amended. Each stage handler reads the previous slot through a
defaulting lookup whose fallbacks (earlier slots, then the raw task text)
can only trigger when the key is absent; since every slot is initialised,
the previous slot is used even when it is still the empty dict: the risk
stage's input is always `document_data` and the compliance stage's local
input is always `risk_assessment`, so when no upstream stage ran the input
is `\x7b\x7d`, never the raw task text. -/
theorem c4_amended (st : RoutingState) (q : String) :
    riskLocalInput st = st.document_data
    ∧ riskRemoteInput st = st.document_data
    ∧ complianceLocalInputData st = st.risk_assessment
    ∧ riskLocalInput (makeRoutingDecision "risk_only" (initialState q)) = PyValue.dict []
    ∧ complianceLocalInputData (makeRoutingDecision "compliance_only" (initialState q))
        = PyValue.dict [] :=
  ⟨rfl, rfl, rfl, rfl, rfl⟩

/-- Claim C5. The route label fixes only the entry point: `risk_only` runs
RiskAssessment, ComplianceCheck and Aggregation; `compliance_only` runs
only ComplianceCheck and Aggregation, leaving `document_data` and
`risk_assessment` equal to `\x7b\x7d`; and `document_only` enters at
DocumentProcessing exactly like `full_pipeline`, producing the same three
stage slots for every environment and task text. -/
theorem c5_routes (env : PipelineEnv) (q : String) :
    (entryNode "risk_only" = some Node.risk_assessment
      ∧ stageListOf "risk_only" =
          [Node.risk_assessment, Node.compliance_check, Node.final_aggregation])
    ∧ (stageListOf "compliance_only" = [Node.compliance_check, Node.final_aggregation]
      ∧ (runFromRoute env "compliance_only" q).document_data = PyValue.dict []
      ∧ (runFromRoute env "compliance_only" q).risk_assessment = PyValue.dict [])
    ∧ (entryNode "document_only" = entryNode "full_pipeline"
      ∧ stageListOf "document_only" = stageListOf "full_pipeline"
      ∧ (runFromRoute env "document_only" q).document_data
          = (runFromRoute env "full_pipeline" q).document_data
      ∧ (runFromRoute env "document_only" q).risk_assessment
          = (runFromRoute env "full_pipeline" q).risk_assessment
      ∧ (runFromRoute env "document_only" q).compliance_result
          = (runFromRoute env "full_pipeline" q).compliance_result) := by
  have h0 : WorkerSlotsEq (makeRoutingDecision "document_only" (initialState q))
      (makeRoutingDecision "full_pipeline" (initialState q)) := ⟨rfl, rfl, rfl, rfl⟩
  have hws := foldl_stages_congr env (seqFrom 5 Node.document_processing) _ _ h0
  obtain ⟨hq2, hd2, hr2, hc2⟩ := hws
  refine ⟨⟨rfl, rfl⟩, ⟨rfl, ?_, ?_⟩, ⟨rfl, rfl, ?_, ?_, ?_⟩⟩
  · rw [runFromRoute_compliance_only, aggregateResults_document, checkCompliance_document]
    rfl
  · rw [runFromRoute_compliance_only, aggregateResults_risk, checkCompliance_risk]
    rfl
  · exact hd2
  · exact hr2
  · exact hc2

/-- Claim C6. A stage failure never halts the machine: a raised worker call
(timeouts included) makes the stage write an `error`-keyed mapping into its
own slot, the fixed edges still lead every route to the Aggregation stage
(which always writes a non-empty `final_result`), and in particular a run
whose compliance call raises still ends with the error mapping recorded in
`compliance_result` after aggregation. -/
theorem c6_stage_failure (env : PipelineEnv) (q s m : String) (st : RoutingState) :
    Node.final_aggregation ∈ stageListOf (validateRoute s)
    ∧ (runFromRoute env s q).final_result ≠ PyValue.dict []
    ∧ (processDocument (.agent (.raised m)) st).document_data
        = PyValue.dict [("error", .str ("Document agent communication failed: " ++ m))]
    ∧ (assessRisk (.agent (.raised m)) st).risk_assessment
        = PyValue.dict [("error", .str ("Credit risk agent communication failed: " ++ m))]
    ∧ (checkCompliance (.agent (.raised m)) st).compliance_result
        = PyValue.dict [("error", .str ("Compliance agent communication failed: " ++ m))]
    ∧ (runFromRoute { env with compCall := .agent (.raised m) } s q).compliance_result
        = PyValue.dict [("error", .str ("Compliance agent communication failed: " ++ m))] := by
  refine ⟨?_, ?_, rfl, rfl, rfl, ?_⟩
  · rcases validateRoute_cases s with h | h | h | h <;> rw [h] <;> decide
  · obtain ⟨stPre, hrun, _, _⟩ := runFromRoute_to_agg env s q
    rw [hrun]
    exact aggregateResults_final_ne _ _ _
  · obtain ⟨stPre, hrun, _, stMid, hmid⟩ :=
      runFromRoute_to_agg { env with compCall := .agent (.raised m) } s q
    rw [hrun, aggregateResults_compliance, hmid]
    rfl

/-- Claim C7, counterexample. C7 asserts any classifier output outside the
closed four-label set is treated as `full_pipeline`; the raw output
`"RISK_ONLY"` is outside the set, yet the code normalises with
`.strip().lower()` before validating and routes it to `risk_only`. -/
theorem c7_counterexample :
    "RISK_ONLY" ∉ validRoutes
    ∧ validateRoute "RISK_ONLY" = "risk_only"
    ∧ validateRoute "RISK_ONLY" ≠ "full_pipeline" := by
  refine ⟨by decide, rfl, by decide⟩

/-- Claim C7, amended. The classifier output is first normalised with
`.strip().lower()`; the normalised value is validated against the closed
four-label set and anything outside it becomes `full_pipeline`, so the
routing decision always lies in the set and an ambiguous classification
never aborts processing. -/
theorem c7_amended (s : String) :
    (if pyLower (pyStrip s) ∈ validRoutes then validateRoute s = pyLower (pyStrip s)
     else validateRoute s = "full_pipeline")
    ∧ validateRoute s ∈ validRoutes := by
  constructor
  · by_cases h : pyLower (pyStrip s) ∈ validRoutes <;> simp [validateRoute, h]
  · rcases validateRoute_cases s with h | h | h | h <;> rw [h] <;> decide

/-- Claim C8. For each of the three worker stages, a reply whose text is
not valid JSON produces a slot carrying `raw_response` (the raw reply text)
and `processing_note`, with no `error` key and no process-terminating
exception (the handlers are total). -/
theorem c8_nonjson_reply (raw : String) (st : RoutingState) :
    (pyLookup (processDocument (.agent (.textReply raw)) st).document_data "raw_response"
        = some (.str raw)
      ∧ pyLookup (processDocument (.agent (.textReply raw)) st).document_data "processing_note"
        = some (.str "Response parsed from text format")
      ∧ pyHasKey (processDocument (.agent (.textReply raw)) st).document_data "error" = false)
    ∧ (pyLookup (assessRisk (.agent (.textReply raw)) st).risk_assessment "raw_response"
        = some (.str raw)
      ∧ pyLookup (assessRisk (.agent (.textReply raw)) st).risk_assessment "processing_note"
        = some (.str "Response parsed from text format")
      ∧ pyHasKey (assessRisk (.agent (.textReply raw)) st).risk_assessment "error" = false)
    ∧ (pyLookup (checkCompliance (.agent (.textReply raw)) st).compliance_result "raw_response"
        = some (.str raw)
      ∧ pyLookup (checkCompliance (.agent (.textReply raw)) st).compliance_result "processing_note"
        = some (.str "Response parsed from text format")
      ∧ pyHasKey (checkCompliance (.agent (.textReply raw)) st).compliance_result "error" = false) :=
  ⟨⟨rfl, rfl, rfl⟩, ⟨rfl, rfl, rfl⟩, ⟨rfl, rfl, rfl⟩⟩

/-- Claim C9. For the example applicant with 80000 annual income, a 720
credit score and implied zero monthly debt, the risk assessment computes a
debt-to-income ratio of 0.0 and risk level "low", and the compliance
check's structured analysis approves (no compliance issues, credit score
720 ≥ 620, DTI ≤ 43). -/
theorem c9_example_scenario :
    (assessCreditRisk
      { annual_income := 80000, monthly_debt := 0, credit_score := 720, loan_amount := 0 }).risk_level
        = "low"
    ∧ (assessCreditRisk
      { annual_income := 80000, monthly_debt := 0, credit_score := 720, loan_amount := 0 }).debt_to_income_ratio
        = 0
    ∧ (analyzeStructuredDirect 720 80000 0 0).approved = true
    ∧ (analyzeStructuredDirect 720 80000 0 0).compliance_issues = [] := by
  refine ⟨?_, ?_, ?_, ?_⟩ <;>
    norm_num [assessCreditRisk, analyzeStructuredDirect, complianceChecks, roundTo2]

/-- Claim C10. For every classifier output and every run whose summariser
succeeds, `processing_summary.total_steps` equals the constant 4 (all four
suffix-matching state slots exist from initialisation), and an untouched
empty `\x7b\x7d` slot has no `error` key, so it passes the
`successful_steps` filter — in the freshly initialised state all four slots
count as successful. -/
theorem c10_processing_summary (env : PipelineEnv) (q s t : String)
    (hsum : env.summarizer = Except.ok t) (hsane : EnvSane env) :
    processingSummaryField (runFromRoute env s q).final_result "total_steps" = some (.num 4)
    ∧ slotNoError (PyValue.dict []) = true
    ∧ errFreeSlotCount (initialState q) = 4 := by
  obtain ⟨stPre, hrun, hiter, _⟩ := runFromRoute_to_agg env s q
  rw [hrun]
  exact ⟨(aggregateResults_fields _ _ _ t hsum (hiter hsane)).1, rfl, rfl⟩

/-- Claim C10, witness: a run with an out-of-set classifier output, every
worker call failing and a successful summariser still reports
`total_steps = 4`. -/
theorem c10_witness :
    processingSummaryField (runFromRoute
      { classifier := .ok "garbage", docCall := .agent (.raised "down"),
        riskCall := .agent (.raised "down"), compCall := .agent (.raised "down"),
        summarizer := .ok "sum", pdfBuild := .error "io" } "garbage" "q").final_result "total_steps"
        = some (.num 4)
    ∧ slotNoError (PyValue.dict []) = true
    ∧ errFreeSlotCount (initialState "q") = 4 :=
  c10_processing_summary _ "q" "garbage" "sum" rfl ⟨trivial, trivial, trivial⟩
